import Mathlib

/-!
Verification of the insurance-document extraction pipeline.

The repository has two FastAPI deployments of the same pipeline:
  * `app.py` (Mistral OCR + OpenAI structured extraction), with helpers
    `mistral_parser.py`, `openai_extractor.py`, `models.py`, `config.py`;
  * `main.py` (OpenAI-vision / native readers + a LangChain LLM chain),
    with helpers in `ai_integration/` and `utils/`.

External network calls (the OCR provider and the LLM provider) are modelled
as explicit inputs: each handler takes the provider outcomes as parameters
and we record which provider calls it performs in a trace.  File-system
effects of `main.py` are recorded in an event trace.  Python exceptions are
modelled by the `PyExc` type; a FastAPI `HTTPException` that escapes the
handler becomes `Response.httpError`, and any other escaping exception
becomes `Response.serverCrash` (FastAPI's generic 500).
-/

/-- Value of one key of the JSON object returned by `json.loads` on the LLM
content: `null`, a string, or anything else (number, list, nested object,
boolean) — lumped as `jother`, since the pydantic models only distinguish
"valid `Optional[str]`" from "invalid". -/
inductive JVal where
  | jnull
  | jstr (s : String)
  | jother
deriving DecidableEq, Repr

/-- Top-level result of `json.loads` on the LLM content: either a JSON
object (a key/value list, keys unique and in insertion order, as a Python
dict) or a non-object value. -/
inductive JTop where
  | jobj (fields : List (String × JVal))
  | jnonobj
deriving DecidableEq, Repr

/-- A parsed JSON object, as a Python dict: association list in insertion
order. -/
abbrev JObj : Type := List (String × JVal)

/-- Dict lookup `o[k]` / membership `k in o` (first matching key). -/
def lookupJ (o : JObj) (k : String) : Option JVal :=
  (o.find? (fun p => p.1 == k)).map (fun p => p.2)

/-- openai_extractor.py lines 165-168: the `required_fields` list. -/
def required_fields : List String :=
  ["name", "policy_number", "email", "policy_name",
   "plan_type", "sum_assured", "room_rent_limit", "waiting_period"]

/-- One iteration of the loop at openai_extractor.py lines 171-173:
`if field not in result: result[field] = None` (a Python dict assignment of
a fresh key appends it at the end). -/
def addMissing (o : JObj) (k : String) : JObj :=
  if (lookupJ o k).isSome then o else o ++ [(k, JVal.jnull)]

/-- The whole normalization loop of openai_extractor.py lines 171-173. -/
def normalizeObj (o : JObj) : JObj :=
  required_fields.foldl addMissing o

/-- Every value of the object is `null` or a string (the inputs on which the
pydantic response model validates). -/
def stringOrNullVals (o : JObj) : Bool :=
  o.all (fun p => match p.2 with
    | JVal.jnull => true
    | JVal.jstr _ => true
    | JVal.jother => false)

/-- The string value the pydantic model ends up with for key `k` of the
(already normalized) object: a string stays, `null` or a missing key becomes
`None`. -/
def optOf (o : JObj) (k : String) : Option String :=
  match lookupJ o k with
  | some (JVal.jstr s) => some s
  | _ => none

/-- The spec's invariant on one field value: a non-empty string or the
explicit absent marker. -/
def nonEmptyOrAbsent : Option String → Bool
  | none => true
  | some s => !(s == "")

/-- models.py `InsuranceDataResponse` / _pdf_extract.py `InsurancePolicyData`:
the canonical 8-field record, every field `Optional[str]` defaulting to
`None`. -/
structure Record where
  name : Option String
  policy_number : Option String
  email : Option String
  policy_name : Option String
  plan_type : Option String
  sum_assured : Option String
  room_rent_limit : Option String
  waiting_period : Option String
deriving DecidableEq, Repr

/-- Pydantic validation of a single `Optional[str]` field from the parsed
object: missing key → default `None`; JSON `null` → `None`; string kept;
any other value is a `ValidationError` (a `ValueError` subclass). -/
def fieldOf (o : JObj) (k : String) : Except String (Option String) :=
  match lookupJ o k with
  | none => Except.ok none
  | some JVal.jnull => Except.ok none
  | some (JVal.jstr s) => Except.ok (some s)
  | some JVal.jother => Except.error ("Input should be a valid string: " ++ k)

/-- app.py line 105 `InsuranceDataResponse(**result)`: pydantic keeps exactly
the 8 declared fields (extra keys are ignored under the default
`extra='ignore'`) and validates each. -/
def validateRecord (o : JObj) : Except String Record := do
  let n ← fieldOf o "name"
  let pn ← fieldOf o "policy_number"
  let em ← fieldOf o "email"
  let pm ← fieldOf o "policy_name"
  let pt ← fieldOf o "plan_type"
  let sa ← fieldOf o "sum_assured"
  let rr ← fieldOf o "room_rent_limit"
  let wp ← fieldOf o "waiting_period"
  pure ⟨n, pn, em, pm, pt, sa, rr, wp⟩

/-- Python exceptions relevant to the two handlers. -/
inductive PyExc where
  | valueError (msg : String)
  | runtimeError (msg : String)
  | attributeError (attr : String)
  | httpExc (status : Nat) (detail : String)
deriving DecidableEq, Repr

/-- Rendering `str(e)` as used in the handlers' message formatting (only the
`HTTPException` rendering matters for any claim). -/
def pyExcStr : PyExc → String
  | PyExc.valueError m => m
  | PyExc.runtimeError m => m
  | PyExc.attributeError a => "object has no attribute " ++ a
  | PyExc.httpExc s d => toString s ++ ": " ++ d

/-- Outcome of one HTTP request: a 200 with the record, an `HTTPException`
response, or an unhandled exception escaping the handler (FastAPI's generic
500 crash path). -/
inductive Response where
  | success (r : Record)
  | httpError (status : Nat) (detail : String)
  | serverCrash (e : PyExc)
deriving DecidableEq, Repr

/-- Whether the outcome is a successful extraction. -/
def Response.isSuccess : Response → Bool
  | Response.success _ => true
  | _ => false

/-- Whether the outcome is a client-side (4xx validation) rejection. -/
def Response.isClientRejection : Response → Bool
  | Response.httpError 400 _ => true
  | _ => false

/-- Outbound provider calls, in order. -/
inductive ProviderCall where
  | ocrCall
  | llmCall
deriving DecidableEq, Repr

/-- File-system events of `main.py`'s handler, in order. -/
inductive FsEvent where
  | create (path : String)
  | write (path : String)
  | delete (path : String)
deriving DecidableEq, Repr

/-- config.py `Settings`: exactly two declared fields; `extra="ignore"`
means unknown environment variables add no attribute. -/
structure Settings where
  openai_api_key : String
  mistral_api_key : String
deriving DecidableEq, Repr

/-- Attribute access on a `Settings` instance: only the two declared fields
exist; any other name is an `AttributeError` (modelled as `none`). -/
def Settings.getattrOpt (s : Settings) (name : String) : Option String :=
  if name = "openai_api_key" then some s.openai_api_key
  else if name = "mistral_api_key" then some s.mistral_api_key
  else none

/-- mistral_parser.py line 8 `SUPPORTED_FORMATS` (written as a list in the
source's literal order; the source uses a set). -/
def SUPPORTED_FORMATS : List String :=
  [".pdf", ".doc", ".docx", ".txt", ".png", ".jpg", ".jpeg"]

/-- mistral_parser.py line 9 `MAX_FILE_SIZE = 50 * 1024 * 1024`. -/
def MAX_FILE_SIZE : Nat := 50 * 1024 * 1024

/-- Split a character list at every occurrence of `c` (Python
`str.split(c)` semantics: the empty input yields one empty piece). -/
def splitOnCharAux (c : Char) : List Char → List Char → List (List Char)
  | [], acc => [acc.reverse]
  | x :: xs, acc =>
    if x = c then acc.reverse :: splitOnCharAux c xs []
    else splitOnCharAux c xs (x :: acc)

/-- Python `Path(filename).suffix.lower()`: the extension (with dot) of the final
path component; empty for no dot, a leading dot alone, or a trailing dot
(pathlib keeps `name[i:]` for `i` the last dot only when `0 < i < len-1`). -/
def pathSuffixLower (filename : String) : String :=
  let base := (splitOnCharAux '/' filename.toList []).getLastD []
  let ps := splitOnCharAux '.' base []
  let suffix :=
    if ps.length ≤ 1 then []
    else if ps.getLastD [] = [] then []
    else if ps.length = 2 ∧ ps.headD [] = [] then []
    else '.' :: ps.getLastD []
  String.mk (suffix.map Char.toLower)

/-- Python `str.strip()`: remove leading and trailing ASCII whitespace. -/
def pyStrip (s : String) : String :=
  let ws : Char → Bool := fun c =>
    c = ' ' ∨ c = '\t' ∨ c = '\n' ∨ c = '\r' ∨ c = '\x0b' ∨ c = '\x0c'
  String.mk (((s.toList.dropWhile ws).reverse.dropWhile ws).reverse)

/-- mistral_parser.py `parse_document`, lines 19-79 (the base64/data-URL
encoding and the network call itself are abstracted: `ocr` is the outcome of
`self.client.ocr.process`, its pages given as each page's `markdown`
attribute, `none` for a page without one).  A page contributes text iff its
markdown is present and non-empty; if no page contributes, the function
raises `ValueError("No text content found in OCR response")` — but that
raise sits inside the same `try`, so the blanket `except Exception` at line
78 catches it and rewraps it as a `RuntimeError`. -/
def parse_document (ocr : Except String (List (Option String))) :
    Except PyExc String :=
  match ocr with
  | Except.error e => Except.error (PyExc.runtimeError ("Mistral OCR error: " ++ e))
  | Except.ok pages =>
    let extracted := pages.filterMap (fun m =>
      match m with
      | some s => if s = "" then none else some s
      | none => none)
    if extracted.isEmpty then
      Except.error (PyExc.runtimeError "Mistral OCR error: No text content found in OCR response")
    else
      Except.ok (String.intercalate "\n\n" extracted)

/-- openai_extractor.py `extract_insurance_data`, lines 135-180 (the chat
request itself is abstracted: `llm` is the transport outcome, and on
transport success carries the result of `json.loads` on the returned
content, with the decode-error detail on parse failure).  A decode failure
raises `ValueError("Failed to parse OpenAI response as JSON: ...")`
(line 178); any other exception — including a non-dict `json.loads` result
hitting the `result[field] = None` assignment — is wrapped into
`RuntimeError("OpenAI API error: ...")` (line 180). -/
def extract_insurance_data (llm : Except String (Except String JTop)) :
    Except PyExc JObj :=
  match llm with
  | Except.error e => Except.error (PyExc.runtimeError ("OpenAI API error: " ++ e))
  | Except.ok (Except.error d) =>
      Except.error (PyExc.valueError ("Failed to parse OpenAI response as JSON: " ++ d))
  | Except.ok (Except.ok JTop.jnonobj) =>
      Except.error (PyExc.runtimeError "OpenAI API error: argument of type is not a dict")
  | Except.ok (Except.ok (JTop.jobj o)) => Except.ok (normalizeObj o)

/-- Environment of one `app.py` request: the (attribute-lookup) value of
`settings.api_auth_token`, whether the two module-level clients were
constructed (lines 16-26), and the outcomes of the two provider calls. -/
structure AppEnv where
  settingsToken : Option String
  mistralConfigured : Bool
  openaiConfigured : Bool
  ocrResult : Except String (List (Option String))
  llmResult : Except String (Except String JTop)

/-- The `try` block of app.py lines 88-105: size check (the raised
`HTTPException` escapes this body as an exception), then the OCR stage, the
LLM stage, and the pydantic response construction (whose `ValidationError`
is a `ValueError`).  Paired with the provider calls it performs. -/
def appTryBody (env : AppEnv) (fileSize : Nat) :
    Except PyExc Record × List ProviderCall :=
  if fileSize > MAX_FILE_SIZE then
    (Except.error (PyExc.httpExc 400
      ("File size exceeds maximum limit of " ++ toString (MAX_FILE_SIZE / (1024 * 1024)) ++ "MB")), [])
  else
    match parse_document env.ocrResult with
    | Except.error e => (Except.error e, [ProviderCall.ocrCall])
    | Except.ok _text =>
      match extract_insurance_data env.llmResult with
      | Except.error e => (Except.error e, [ProviderCall.ocrCall, ProviderCall.llmCall])
      | Except.ok o =>
        match validateRecord o with
        | Except.error m =>
            (Except.error (PyExc.valueError m), [ProviderCall.ocrCall, ProviderCall.llmCall])
        | Except.ok r => (Except.ok r, [ProviderCall.ocrCall, ProviderCall.llmCall])

/-- The `except` clauses of app.py lines 107-112, in order: `ValueError` →
400, `RuntimeError` → 500, any other `Exception` → 500 "Unexpected error".
Note the size-limit `HTTPException(400, ...)` raised at line 94 is itself an
`Exception` but neither a `ValueError` nor a `RuntimeError`, so it is caught
by the catch-all and surfaces as a 500. -/
def appExceptClauses : PyExc → Response
  | PyExc.valueError m => Response.httpError 400 m
  | PyExc.runtimeError m => Response.httpError 500 m
  | e => Response.httpError 500 ("Unexpected error: " ++ pyExcStr e)

/-- app.py `extract_insurance_data` handler, lines 40-112: auth-header check
(the attribute access `settings.api_auth_token` raises `AttributeError` when
the attribute does not exist, escaping the handler), client-configured
checks, extension allow-list check, then the `try` body with its `except`
clauses.  Returns the HTTP outcome and the provider calls performed. -/
def appExtractHandler (env : AppEnv) (xApiKey : String) (filename : String)
    (fileSize : Nat) : Response × List ProviderCall :=
  match env.settingsToken with
  | none => (Response.serverCrash (PyExc.attributeError "api_auth_token"), [])
  | some tok =>
    if xApiKey ≠ tok then
      (Response.httpError 401 "Invalid or missing API key", [])
    else if ¬ env.mistralConfigured then
      (Response.httpError 500
        "Mistral API key not configured. Please set MISTRAL_API_KEY environment variable.", [])
    else if ¬ env.openaiConfigured then
      (Response.httpError 500
        "OpenAI API key not configured. Please set OPENAI_API_KEY environment variable.", [])
    else
      let ext := pathSuffixLower filename
      if ext ∉ SUPPORTED_FORMATS then
        (Response.httpError 400
          ("Unsupported file format: " ++ ext ++ ". Supported formats: " ++
            String.intercalate ", " SUPPORTED_FORMATS), [])
      else
        match appTryBody env fileSize with
        | (Except.ok r, calls) => (Response.success r, calls)
        | (Except.error e, calls) => (appExceptClauses e, calls)

/-- main.py line 70: the reduced allow-list of the second deployment. -/
def mainAllowedFormats : List String := [".pdf", ".txt", ".docx"]

/-- The path of the `tempfile.NamedTemporaryFile(delete=False,
suffix=file_extension)` used by main.py lines 78-81. -/
def tempFilePath (ext : String) : String := "/tmp/upload" ++ ext

/-- Environment of one `main.py` request: whether
`InsurancePDFProcessor()` construction (line 68) succeeds, the outcome of
`extract_text_from_document`, and the outcome of `pdf_processor.generate`. -/
structure MainEnv where
  ctorOk : Bool
  extractResult : Except String String
  generateResult : Except String Record

/-- main.py `extract_document_info` handler, lines 57-107: processor
construction (before any validation), extension check (no size check
exists in this deployment — `fileSize` is never read), temp-file write,
text extraction (a vision-LLM/OCR provider call for `.pdf`, native readers
otherwise), the `extract.txt` dump at lines 86-87, the blank-text check
(its `HTTPException` is re-raised intact by `except HTTPException`), the
LLM `generate` call, and the `finally` clause deleting the temp file.
Returns the HTTP outcome, the provider calls and the file-system events
performed, each in order. -/
def extract_document_info (env : MainEnv) (filename : String)
    (_fileSize : Nat) : Response × List ProviderCall × List FsEvent :=
  if ¬ env.ctorOk then
    (Response.serverCrash (PyExc.runtimeError
      "GOOGLE_API_KEY is required. Please set in environment variables."), [], [])
  else
    let ext := pathSuffixLower filename
    if ext ∉ mainAllowedFormats then
      (Response.httpError 400
        "Unsupported file format. Please upload PDF, TXT, or DOCX files.", [], [])
    else
      let tmp := tempFilePath ext
      let pre : List FsEvent := [FsEvent.create tmp, FsEvent.write tmp]
      let extCalls : List ProviderCall :=
        if ext = ".pdf" then [ProviderCall.ocrCall] else []
      match env.extractResult with
      | Except.error e =>
        (Response.httpError 500 ("Error processing document: " ++ e),
          extCalls, pre ++ [FsEvent.delete tmp])
      | Except.ok text =>
        let afterDump := pre ++ [FsEvent.write "extract.txt"]
        if pyStrip text = "" then
          (Response.httpError 400 "No text could be extracted from the document",
            extCalls, afterDump ++ [FsEvent.delete tmp])
        else
          match env.generateResult with
          | Except.error e =>
            (Response.httpError 500 ("Error processing document: " ++ e),
              extCalls ++ [ProviderCall.llmCall], afterDump ++ [FsEvent.delete tmp])
          | Except.ok r =>
            (Response.success r,
              extCalls ++ [ProviderCall.llmCall], afterDump ++ [FsEvent.delete tmp])

/-- Sampling/format parameters of one `chat.completions.create` request (the
message payload — system prompt and user content — is not modelled; no claim
concerns it).  `temperature` is exact here: both sources pass the literal
`0`/`0.0`, exactly representable. -/
structure ChatRequest where
  model : String
  temperature : Rat
  responseFormat : Option String
  maxTokens : Option Nat
  stop : Option (List String)
deriving DecidableEq, Repr

/-- The request built by openai_extractor.py lines 147-159: model
`gpt-4o-mini`, `response_format={"type": "json_object"}`, `temperature=0`,
`max_tokens=1000`. -/
def extractorBuildRequest (_documentText : String) : ChatRequest :=
  { model := "gpt-4o-mini"
    temperature := 0
    responseFormat := some "json_object"
    maxTokens := some 1000
    stop := none }

/-- ai_integration/_llm.py line 14: `model_name` field default. -/
def openAILLMDefaultModel : String := "gpt-4o-mini"

/-- ai_integration/_llm.py line 16: `temperature` field default `0.0`. -/
def openAILLMDefaultTemperature : Rat := 0

/-- The request built by `OpenAILLM._call`, ai_integration/_llm.py lines
36-44: model and temperature from the instance fields, `stop` passed
through, and no `response_format` or `max_tokens` argument at all. -/
def openAILLMBuildRequest (modelName : String) (temperature : Rat)
    (_prompt : String) (stop : Option (List String)) : ChatRequest :=
  { model := modelName
    temperature := temperature
    responseFormat := none
    maxTokens := none
    stop := stop }

/-- The names defined at top level by ai_integration/_llm.py (lines 13 and
49): only `OpenAILLM` and `CustomPromptLoader`. -/
def llmModuleDefs : List String := ["OpenAILLM", "CustomPromptLoader"]

/-- The names ai_integration/__init__.py line 1 requests from `._llm`. -/
def initImportsFromLlm : List String := ["GeminiLLM"]

/-- The names ai_integration/pdf_processor/_pdf_extract.py line 8 requests
from `.._llm`. -/
def pdfExtractImportsFromLlm : List String := ["GeminiLLM", "CustomPromptLoader"]

/-- Python `from m import a, b, ...`: fails with `ImportError: cannot import
name n` on the first requested name `n` the module does not define. -/
def importFrom (defs requested : List String) : Except String Unit :=
  match requested.find? (fun n => ¬ defs.contains n) with
  | some n => Except.error ("cannot import name " ++ n)
  | none => Except.ok ()

/-- Importing the `ai_integration` package executes __init__.py: line 1
imports `GeminiLLM` from `._llm`, then line 2 imports from
`.pdf_processor._pdf_extract`, whose own line 8 imports from `.._llm`. -/
def aiIntegrationImport : Except String Unit := do
  importFrom llmModuleDefs initImportsFromLlm
  importFrom llmModuleDefs pdfExtractImportsFromLlm

/-- main.py line 15 `from ai_integration import InsurancePolicyData,
InsurancePDFProcessor`: loading main.py first triggers the package import. -/
def mainModuleImport : Except String Unit := aiIntegrationImport

/-- Concrete request environment for the C1 counterexample: auth token
present and matched, both clients configured, OCR returns one page of text,
and the LLM returns the JSON object with a single key `"name"` whose value
is the empty string. -/
def envC1 : AppEnv :=
  { settingsToken := some "k"
    mistralConfigured := true
    openaiConfigured := true
    ocrResult := Except.ok [some "policy text"]
    llmResult := Except.ok (Except.ok (JTop.jobj [("name", JVal.jstr "")])) }

/-- Concrete request environment for C2: auth passes, clients configured,
the OCR provider returns zero pages with text, and a (never reached) LLM
outcome. -/
def envC2 : AppEnv :=
  { settingsToken := some "k"
    mistralConfigured := true
    openaiConfigured := true
    ocrResult := Except.ok []
    llmResult := Except.ok (Except.ok (JTop.jobj [])) }

/-- Concrete request environment for C8: processor constructed, text
extraction succeeds with non-blank text, and the LLM chain returns a
record. -/
def envC8 : MainEnv :=
  { ctorOk := true
    extractResult := Except.ok "Policy Holder: John Doe"
    generateResult := Except.ok
      ⟨some "John Doe", none, none, none, none, none, none, none⟩ }

/-- Concrete request environment for the C4 counterexample: the token is
the attribute lookup on the actual `Settings` shape (which has no
`api_auth_token`). -/
def envC4 : AppEnv :=
  { settingsToken := Settings.getattrOpt ⟨"sk-openai", "sk-mistral"⟩ "api_auth_token"
    mistralConfigured := true
    openaiConfigured := true
    ocrResult := Except.ok [some "text"]
    llmResult := Except.ok (Except.ok (JTop.jobj [])) }

/-- Concrete request environment for the C5 counterexample. -/
def envC5 : MainEnv :=
  { ctorOk := true
    extractResult := Except.ok "some policy text"
    generateResult := Except.ok ⟨some "A", none, none, none, none, none, none, none⟩ }

/-- Concrete request environment for the C6 counterexample: the LLM
transport succeeds but its content is not valid JSON. -/
def envC6 : AppEnv :=
  { settingsToken := some "k"
    mistralConfigured := true
    openaiConfigured := true
    ocrResult := Except.ok [some "text"]
    llmResult := Except.ok (Except.error "Expecting value: line 1 column 1 (char 0)") }


/-! Lemmas about dict lookup and the normalization loop. -/

theorem lookupJ_cons (p : String × JVal) (o : JObj) (k : String) :
    lookupJ (p :: o) k = if p.1 == k then some p.2 else lookupJ o k := by
  by_cases h : p.1 == k
  · simp [lookupJ, List.find?_cons_of_pos, h]
  · simp only [Bool.not_eq_true] at h
    simp [lookupJ, List.find?_cons_of_neg, h]

theorem lookupJ_append_of_some (o l : JObj) (k : String) (v : JVal)
    (h : lookupJ o k = some v) : lookupJ (o ++ l) k = some v := by
  induction o with
  | nil => simp [lookupJ] at h
  | cons p o ih =>
    rw [List.cons_append, lookupJ_cons]
    rw [lookupJ_cons] at h
    by_cases hp : p.1 == k
    · rw [if_pos hp] at h ⊢
      exact h
    · rw [if_neg hp] at h ⊢
      exact ih h

theorem lookupJ_append_of_none (o l : JObj) (k : String)
    (h : lookupJ o k = none) : lookupJ (o ++ l) k = lookupJ l k := by
  induction o with
  | nil => rfl
  | cons p o ih =>
    rw [List.cons_append, lookupJ_cons]
    rw [lookupJ_cons] at h
    by_cases hp : p.1 == k
    · rw [if_pos hp] at h
      cases h
    · rw [if_neg hp] at h
      rw [if_neg hp]
      exact ih h

theorem lookupJ_addMissing_of_some (o : JObj) (a k : String) (v : JVal)
    (h : lookupJ o k = some v) : lookupJ (addMissing o a) k = some v := by
  unfold addMissing
  split
  · exact h
  · exact lookupJ_append_of_some o _ k v h

theorem lookupJ_addMissing_ne (o : JObj) (a k : String) (hne : a ≠ k) :
    lookupJ (addMissing o a) k = lookupJ o k := by
  unfold addMissing
  split
  · rfl
  · cases hK : lookupJ o k with
    | some v => exact lookupJ_append_of_some o _ k v hK
    | none =>
      rw [lookupJ_append_of_none o _ k hK, lookupJ_cons]
      simp [lookupJ, hne]

theorem lookupJ_addMissing_self (o : JObj) (a : String)
    (h : lookupJ o a = none) : lookupJ (addMissing o a) a = some JVal.jnull := by
  unfold addMissing
  simp only [h, Option.isSome_none, Bool.false_eq_true, if_false]
  rw [lookupJ_append_of_none o _ a h, lookupJ_cons]
  simp

theorem lookupJ_foldl_of_some (ks : List String) (o : JObj) (k : String)
    (v : JVal) (h : lookupJ o k = some v) :
    lookupJ (ks.foldl addMissing o) k = some v := by
  induction ks generalizing o with
  | nil => exact h
  | cons a ks ih =>
    rw [List.foldl_cons]
    exact ih _ (lookupJ_addMissing_of_some o a k v h)

theorem lookupJ_foldl_mem (ks : List String) (o : JObj) (k : String)
    (hk : k ∈ ks) (h : lookupJ o k = none) :
    lookupJ (ks.foldl addMissing o) k = some JVal.jnull := by
  revert hk
  induction ks generalizing o with
  | nil => intro hk; cases hk
  | cons a ks ih =>
    intro hk
    rw [List.foldl_cons]
    by_cases hak : a = k
    · subst hak
      exact lookupJ_foldl_of_some ks _ a JVal.jnull (lookupJ_addMissing_self o a h)
    · rcases List.mem_cons.mp hk with hka | hk'
      · exact absurd hka.symm hak
      · exact ih _ ((lookupJ_addMissing_ne o a k hak).trans h) hk'

theorem lookupJ_foldl_not_mem (ks : List String) (o : JObj) (k : String)
    (hk : k ∉ ks) : lookupJ (ks.foldl addMissing o) k = lookupJ o k := by
  revert hk
  induction ks generalizing o with
  | nil => intro _; rfl
  | cons a ks ih =>
    intro hk
    have h1 : a ≠ k := fun h => hk (h ▸ List.mem_cons_self a ks)
    have h2 : k ∉ ks := fun h => hk (List.mem_cons_of_mem a h)
    rw [List.foldl_cons, ih (addMissing o a) h2, lookupJ_addMissing_ne o a k h1]

theorem lookupJ_normalizeObj (o : JObj) (k : String)
    (hk : k ∈ required_fields) :
    lookupJ (normalizeObj o) k = some ((lookupJ o k).getD JVal.jnull) := by
  cases h : lookupJ o k with
  | some v => simpa using lookupJ_foldl_of_some required_fields o k v h
  | none => simpa using lookupJ_foldl_mem required_fields o k hk h

theorem foldl_addMissing_of_present (ks : List String) (o : JObj)
    (h : ∀ k ∈ ks, (lookupJ o k).isSome) : ks.foldl addMissing o = o := by
  induction ks with
  | nil => rfl
  | cons a ks ih =>
    have ha := h a (List.mem_cons_self a ks)
    have heq : addMissing o a = o := by
      unfold addMissing
      simp [ha]
    rw [List.foldl_cons, heq, ih (fun k hk => h k (List.mem_cons_of_mem a hk))]

theorem normalizeObj_idem (o : JObj) :
    normalizeObj (normalizeObj o) = normalizeObj o := by
  show required_fields.foldl addMissing (normalizeObj o) = normalizeObj o
  apply foldl_addMissing_of_present
  intro k hk
  rw [lookupJ_normalizeObj o k hk]
  rfl

/-- C3: the post-processing loop of openai_extractor.py lines 164-173
inserts the absent value (`null`) for exactly those of the 8 canonical keys
missing from the parsed object, leaves every present key's value unchanged,
leaves non-canonical keys untouched, and is idempotent.  (The loop is a
total function of the object — only membership tests and assignments — so no
`KeyError`-class failure can reach the caller.) -/
theorem C3_normalization_inserts_exactly_missing (o : JObj) :
    (∀ k, k ∈ required_fields → lookupJ o k = none →
      lookupJ (normalizeObj o) k = some JVal.jnull) ∧
    (∀ k v, lookupJ o k = some v → lookupJ (normalizeObj o) k = some v) ∧
    (∀ k, k ∉ required_fields → lookupJ (normalizeObj o) k = lookupJ o k) ∧
    normalizeObj (normalizeObj o) = normalizeObj o := by
  refine ⟨?_, ?_, ?_, normalizeObj_idem o⟩
  · intro k hk h
    exact lookupJ_foldl_mem required_fields o k hk h
  · intro k v h
    exact lookupJ_foldl_of_some required_fields o k v h
  · intro k hk
    exact lookupJ_foldl_not_mem required_fields o k hk

/-- Witness for C3 on an object carrying one canonical key and one extra
key: a missing canonical key gets `null`, the present key and the extra key
are untouched, and normalization is idempotent. -/
theorem C3_normalization_inserts_exactly_missing_witness :
    lookupJ (normalizeObj [("name", JVal.jstr "A"), ("extra", JVal.jother)])
        "policy_number" = some JVal.jnull ∧
    lookupJ (normalizeObj [("name", JVal.jstr "A"), ("extra", JVal.jother)])
        "name" = some (JVal.jstr "A") ∧
    lookupJ (normalizeObj [("name", JVal.jstr "A"), ("extra", JVal.jother)])
        "extra" = lookupJ [("name", JVal.jstr "A"), ("extra", JVal.jother)] "extra" ∧
    normalizeObj (normalizeObj [("name", JVal.jstr "A"), ("extra", JVal.jother)]) =
      normalizeObj [("name", JVal.jstr "A"), ("extra", JVal.jother)] :=
  ⟨(C3_normalization_inserts_exactly_missing _).1 "policy_number" (by decide) (by decide),
   (C3_normalization_inserts_exactly_missing _).2.1 "name" _ (by decide),
   (C3_normalization_inserts_exactly_missing _).2.2.1 "extra" (by decide),
   (C3_normalization_inserts_exactly_missing _).2.2.2⟩

/-- C1 counterexample: a successful run of the `/extract` handler whose
returned record carries the empty string for `name` — refuting "each key's
value is either a non-empty string or the explicit absent marker".  Nothing
in the pipeline rejects or converts empty strings. -/
theorem C1_counterexample_empty_string :
    appExtractHandler envC1 "k" "policy.pdf" 100 =
      (Response.success ⟨some "", none, none, none, none, none, none, none⟩,
        [ProviderCall.ocrCall, ProviderCall.llmCall]) ∧
    nonEmptyOrAbsent (some "") = false := by
  constructor
  · decide
  · decide

/-- C1 amended: for every parsed LLM JSON object whose values are strings or
`null`, the record construction of a successful run (post-processing
normalization followed by the pydantic response model) succeeds and yields
exactly the 8 canonical fields, each the object's string value or the absent
marker — missing keys become absent, extra keys are dropped — but an empty
string value is passed through unchanged, not converted to absent. -/
theorem C1_record_shape (o : JObj) (h : stringOrNullVals o = true) :
    validateRecord (normalizeObj o) =
      Except.ok ⟨optOf o "name", optOf o "policy_number", optOf o "email",
        optOf o "policy_name", optOf o "plan_type", optOf o "sum_assured",
        optOf o "room_rent_limit", optOf o "waiting_period"⟩ := by
  have hval : ∀ k v, lookupJ o k = some v → v ≠ JVal.jother := by
    intro k v hkv hv
    subst hv
    unfold lookupJ at hkv
    cases hfind : o.find? (fun p => p.1 == k) with
    | none =>
      rw [hfind] at hkv
      cases hkv
    | some p =>
      rw [hfind] at hkv
      have hp2 : p.2 = JVal.jother := by simpa using hkv
      have hmem := List.mem_of_find?_eq_some hfind
      unfold stringOrNullVals at h
      have hall := (List.all_eq_true.mp h) p hmem
      rw [hp2] at hall
      simp at hall
  have hfield : ∀ k, k ∈ required_fields →
      fieldOf (normalizeObj o) k = Except.ok (optOf o k) := by
    intro k hk
    have hnorm := lookupJ_normalizeObj o k hk
    unfold fieldOf optOf
    rw [hnorm]
    cases hok : lookupJ o k with
    | none => simp
    | some v =>
      cases v with
      | jnull => simp
      | jstr s => simp
      | jother => exact absurd rfl (hval k _ hok)
  simp only [validateRecord,
    hfield "name" (by decide), hfield "policy_number" (by decide),
    hfield "email" (by decide), hfield "policy_name" (by decide),
    hfield "plan_type" (by decide), hfield "sum_assured" (by decide),
    hfield "room_rent_limit" (by decide), hfield "waiting_period" (by decide)]
  rfl

/-- Witness for C1's amended statement at a concrete two-key object. -/
theorem C1_record_shape_witness :
    validateRecord (normalizeObj [("name", JVal.jstr "John"), ("email", JVal.jnull)]) =
      Except.ok ⟨some "John", none, none, none, none, none, none, none⟩ := by
  rw [C1_record_shape [("name", JVal.jstr "John"), ("email", JVal.jnull)] (by decide)]
  rfl

/-- C9: for every `Settings` instance (which declares only
`openai_api_key` and `mistral_api_key`; `extra="ignore"` adds nothing) and
every request, the app.py handler's auth comparison reads the non-existent
attribute `api_auth_token` and raises `AttributeError` — whatever
`X-API-Key` was supplied — before the extension/size validation and before
any provider call (the call trace is empty). -/
theorem C9_auth_attribute_error (s : Settings) (mc oc : Bool)
    (ocr : Except String (List (Option String)))
    (llm : Except String (Except String JTop))
    (xApiKey filename : String) (fileSize : Nat) :
    appExtractHandler
        { settingsToken := s.getattrOpt "api_auth_token"
          mistralConfigured := mc, openaiConfigured := oc
          ocrResult := ocr, llmResult := llm }
        xApiKey filename fileSize =
      (Response.serverCrash (PyExc.attributeError "api_auth_token"), []) := by
  rfl

/-- C10: `ai_integration/_llm.py` defines only `OpenAILLM` (and
`CustomPromptLoader`), yet both `ai_integration/__init__.py` and
`_pdf_extract.py` import the name `GeminiLLM` from it, so importing the
`ai_integration` package — and hence loading `main.py`, which does so at
module level — fails with an ImportError for every input. -/
theorem C10_gemini_import_fails :
    aiIntegrationImport = Except.error "cannot import name GeminiLLM" ∧
    mainModuleImport = Except.error "cannot import name GeminiLLM" ∧
    "GeminiLLM" ∉ llmModuleDefs ∧
    "OpenAILLM" ∈ llmModuleDefs := by
  refine ⟨rfl, rfl, by decide, by decide⟩

/-- C2 (code bug): on OCR output with zero pages of text,
`parse_document` raises `ValueError("No text content found in OCR
response")` — which app.py would map to a 400 user error — but the blanket
`except Exception` in the same `try` (mistral_parser.py line 78) catches it
first and rewraps it as `RuntimeError("Mistral OCR error: ...")`, so the
handler surfaces HTTP 500, the same class as a provider failure, not the
distinct user-error class the claim states.  The claim's other half holds:
the LLM stage is never invoked (the call trace stops at the OCR call). -/
theorem C2_no_content_misclassified :
    parse_document (Except.ok []) =
      Except.error (PyExc.runtimeError
        "Mistral OCR error: No text content found in OCR response") ∧
    parse_document (Except.ok [none, some ""]) =
      Except.error (PyExc.runtimeError
        "Mistral OCR error: No text content found in OCR response") ∧
    appExtractHandler envC2 "k" "policy.pdf" 100 =
      (Response.httpError 500
        "Mistral OCR error: No text content found in OCR response",
        [ProviderCall.ocrCall]) := by
  refine ⟨rfl, rfl, by decide⟩

/-- C8 (code bug): main.py lines 86-87 write the full extracted text to
`extract.txt` in the working directory on every run that reaches the
extraction stage, and no code ever deletes it — so a successful request
creates a persistent file beyond the (deleted) uploaded-document temp
file, contradicting the no-persistence claim.  The temp file itself is
deleted, as the claim says. -/
theorem C8_extract_txt_persisted :
    extract_document_info envC8 "doc.txt" 1000 =
      (Response.success ⟨some "John Doe", none, none, none, none, none, none, none⟩,
        [ProviderCall.llmCall],
        [FsEvent.create "/tmp/upload.txt", FsEvent.write "/tmp/upload.txt",
         FsEvent.write "extract.txt", FsEvent.delete "/tmp/upload.txt"]) ∧
    FsEvent.write "extract.txt" ∈ (extract_document_info envC8 "doc.txt" 1000).2.2 ∧
    FsEvent.delete "extract.txt" ∉ (extract_document_info envC8 "doc.txt" 1000).2.2 ∧
    FsEvent.delete "/tmp/upload.txt" ∈ (extract_document_info envC8 "doc.txt" 1000).2.2 := by
  refine ⟨by decide, by decide, by decide, by decide⟩

/-- C4 counterexample: with the shipped `Settings`, an upload with the
disallowed extension `.exe` never reaches the extension validation — the
handler dies at the auth attribute lookup with an `AttributeError` (a 500),
not a validation rejection with a human-readable reason.  (The "no provider
call" half of the claim does hold here: the trace is empty.) -/
theorem C4_counterexample_crash_before_validation :
    appExtractHandler envC4 "anykey" "malware.exe" 100 =
      (Response.serverCrash (PyExc.attributeError "api_auth_token"), []) ∧
    (appExtractHandler envC4 "anykey" "malware.exe" 100).1.isClientRejection = false := by
  refine ⟨by decide, by decide⟩

/-- C4 amended: provided the handler's preliminary steps succeed (in app.py
the `api_auth_token` attribute exists and matches and both clients are
configured; in main.py the processor construction succeeds), every upload
whose lower-cased extension is outside the deployment's allow-list is
rejected with HTTP 400 and a human-readable reason, with no OCR and no LLM
provider call (and, in main.py, no file-system event). -/
theorem C4_bad_extension_rejected :
    (∀ (tok filename : String) (fileSize : Nat)
        (ocr : Except String (List (Option String)))
        (llm : Except String (Except String JTop)),
      pathSuffixLower filename ∉ SUPPORTED_FORMATS →
      appExtractHandler
          { settingsToken := some tok, mistralConfigured := true
            openaiConfigured := true, ocrResult := ocr, llmResult := llm }
          tok filename fileSize =
        (Response.httpError 400
          ("Unsupported file format: " ++ pathSuffixLower filename ++
            ". Supported formats: " ++ String.intercalate ", " SUPPORTED_FORMATS), [])) ∧
    (∀ (env : MainEnv) (filename : String) (fileSize : Nat),
      env.ctorOk = true →
      pathSuffixLower filename ∉ mainAllowedFormats →
      extract_document_info env filename fileSize =
        (Response.httpError 400
          "Unsupported file format. Please upload PDF, TXT, or DOCX files.", [], [])) := by
  constructor
  · intro tok filename fileSize ocr llm hext
    simp [appExtractHandler, hext]
  · intro env filename fileSize hctor hext
    simp [extract_document_info, hctor, hext]

/-- Witness for C4's amended statement: `.exe` in app.py, `.png` (allowed
by app.py's list but not main.py's) in main.py. -/
theorem C4_bad_extension_rejected_witness :
    appExtractHandler
        { settingsToken := some "t", mistralConfigured := true
          openaiConfigured := true, ocrResult := Except.ok [some "x"]
          llmResult := Except.ok (Except.ok (JTop.jobj [])) }
        "t" "malware.exe" 5 =
      (Response.httpError 400
        ("Unsupported file format: " ++ pathSuffixLower "malware.exe" ++
          ". Supported formats: " ++ String.intercalate ", " SUPPORTED_FORMATS), []) ∧
    extract_document_info
        ⟨true, Except.ok "x", Except.ok ⟨none, none, none, none, none, none, none, none⟩⟩
        "img.png" 5 =
      (Response.httpError 400
        "Unsupported file format. Please upload PDF, TXT, or DOCX files.", [], []) :=
  ⟨C4_bad_extension_rejected.1 "t" "malware.exe" 5 _ _ (by decide),
   C4_bad_extension_rejected.2 _ "img.png" 5 rfl (by decide)⟩

/-- C5 counterexample: the main.py deployment has no size check at all — a
60 MB `.txt` upload (beyond the 50 MB maximum) is processed to completion,
refuting "validation rejects ... in both supported deployment variants". -/
theorem C5_counterexample_main_ignores_size :
    60 * 1024 * 1024 > MAX_FILE_SIZE ∧
    extract_document_info envC5 "big.txt" (60 * 1024 * 1024) =
      (Response.success ⟨some "A", none, none, none, none, none, none, none⟩,
        [ProviderCall.llmCall],
        [FsEvent.create "/tmp/upload.txt", FsEvent.write "/tmp/upload.txt",
         FsEvent.write "extract.txt", FsEvent.delete "/tmp/upload.txt"]) := by
  refine ⟨by decide, by decide⟩

/-- C5 amended: only the OCR-capable deployment (app.py) enforces the 50 MB
limit.  There, given the auth lookup/compare succeeds and the clients are
configured, any upload exceeding `MAX_FILE_SIZE` fails — whatever its
extension — with no provider call (a 400 for a disallowed extension; for an
allowed one the size `HTTPException` is swallowed by the handler's own
catch-all and resurfaces as a 500 "Unexpected error").  main.py performs no
size check (see the counterexample). -/
theorem C5_oversize_rejected_app (tok filename : String) (fileSize : Nat)
    (ocr : Except String (List (Option String)))
    (llm : Except String (Except String JTop))
    (h : fileSize > MAX_FILE_SIZE) :
    (appExtractHandler
        { settingsToken := some tok, mistralConfigured := true
          openaiConfigured := true, ocrResult := ocr, llmResult := llm }
        tok filename fileSize).1.isSuccess = false ∧
    (appExtractHandler
        { settingsToken := some tok, mistralConfigured := true
          openaiConfigured := true, ocrResult := ocr, llmResult := llm }
        tok filename fileSize).2 = [] := by
  by_cases hext : pathSuffixLower filename ∈ SUPPORTED_FORMATS
  · simp [appExtractHandler, hext, appTryBody, h, appExceptClauses, Response.isSuccess]
  · simp [appExtractHandler, hext, Response.isSuccess]

/-- Witness for C5's amended statement at one byte over the limit. -/
theorem C5_oversize_rejected_app_witness :
    (appExtractHandler
        { settingsToken := some "t", mistralConfigured := true
          openaiConfigured := true, ocrResult := Except.ok [some "x"]
          llmResult := Except.ok (Except.ok (JTop.jobj [])) }
        "t" "big.pdf" (MAX_FILE_SIZE + 1)).1.isSuccess = false ∧
    (appExtractHandler
        { settingsToken := some "t", mistralConfigured := true
          openaiConfigured := true, ocrResult := Except.ok [some "x"]
          llmResult := Except.ok (Except.ok (JTop.jobj [])) }
        "t" "big.pdf" (MAX_FILE_SIZE + 1)).2 = [] :=
  C5_oversize_rejected_app "t" "big.pdf" (MAX_FILE_SIZE + 1) _ _ (by decide)

/-- The app.py handler performs at most one OCR call and at most one LLM
call per request: its trace is always one of `[]`, `[ocrCall]`,
`[ocrCall, llmCall]`. -/
theorem appTryBody_trace_cases (env : AppEnv) (size : Nat) :
    (appTryBody env size).2 = [] ∨
    (appTryBody env size).2 = [ProviderCall.ocrCall] ∨
    (appTryBody env size).2 = [ProviderCall.ocrCall, ProviderCall.llmCall] := by
  unfold appTryBody
  repeat' split
  all_goals simp

theorem appTrace_cases (env : AppEnv) (key filename : String) (size : Nat) :
    (appExtractHandler env key filename size).2 = [] ∨
    (appExtractHandler env key filename size).2 = [ProviderCall.ocrCall] ∨
    (appExtractHandler env key filename size).2 =
      [ProviderCall.ocrCall, ProviderCall.llmCall] := by
  simp only [appExtractHandler]
  cases env.settingsToken with
  | none => simp
  | some tok =>
    repeat' split
    any_goals simp
    all_goals
      rename_i heq
    all_goals
      have h3 := appTryBody_trace_cases env size
    all_goals
      rw [heq] at h3
    all_goals
      simpa using h3

/-- C6 counterexample: a JSON-decode failure of the LLM content surfaces as
HTTP 400 — the handler's `except ValueError` branch, the same class it uses
for user-input errors — refuting "a server-side failure, distinct from
InvalidInput user errors". -/
theorem C6_counterexample_decode_maps_to_400 :
    appExtractHandler envC6 "k" "policy.pdf" 100 =
      (Response.httpError 400
        "Failed to parse OpenAI response as JSON: Expecting value: line 1 column 1 (char 0)",
        [ProviderCall.ocrCall, ProviderCall.llmCall]) ∧
    Response.isClientRejection (Response.httpError 400
      "Failed to parse OpenAI response as JSON: Expecting value: line 1 column 1 (char 0)") = true := by
  refine ⟨by decide, by decide⟩

/-- C6 amended: in the adapter, a JSON-decode failure raises
`ValueError("Failed to parse OpenAI response as JSON: ...")`, which app.py
maps to HTTP 400 — the user-error class, not a distinct server-side class —
while any other provider/transport failure raises
`RuntimeError("OpenAI API error: ...")`, mapped to HTTP 500; neither is
retried: the handler never performs more than one LLM (or OCR) call per
request. -/
theorem C6_error_mapping_no_retry :
    (∀ d : String, extract_insurance_data (Except.ok (Except.error d)) =
      Except.error (PyExc.valueError ("Failed to parse OpenAI response as JSON: " ++ d))) ∧
    (∀ e : String, extract_insurance_data (Except.error e) =
      Except.error (PyExc.runtimeError ("OpenAI API error: " ++ e))) ∧
    (∀ d : String, appExceptClauses (PyExc.valueError d) = Response.httpError 400 d) ∧
    (∀ e : String, appExceptClauses (PyExc.runtimeError e) = Response.httpError 500 e) ∧
    (∀ (env : AppEnv) (key filename : String) (size : Nat),
      (appExtractHandler env key filename size).2.count ProviderCall.llmCall ≤ 1 ∧
      (appExtractHandler env key filename size).2.count ProviderCall.ocrCall ≤ 1) := by
  refine ⟨fun d => rfl, fun e => rfl, fun d => rfl, fun e => rfl, ?_⟩
  intro env key filename size
  rcases appTrace_cases env key filename size with h | h | h <;>
    rw [h] <;> exact ⟨by decide, by decide⟩

/-- C7 counterexample: the request built by `OpenAILLM._call`
(ai_integration/_llm.py) carries no `response_format` constraint at all, so
"constrains the provider to return a JSON object — in both deployment
variants" fails for that variant. -/
theorem C7_counterexample_no_response_format :
    (openAILLMBuildRequest openAILLMDefaultModel openAILLMDefaultTemperature
      "prompt" none).responseFormat = none ∧
    (none : Option String) ≠ some "json_object" := by
  refine ⟨rfl, by decide⟩

/-- C7 amended: both adapters pin the sampling temperature to zero (the
openai_extractor one with the literal `temperature=0`, the `OpenAILLM` one
through its default `temperature=0.0` field, the only construction the
repository performs), but only the openai_extractor request constrains the
response format to a JSON object; `OpenAILLM._call` passes no
`response_format` argument. -/
theorem C7_temperature_pinned_format_one_variant
    (text prompt : String) (stop : Option (List String)) :
    (extractorBuildRequest text).temperature = 0 ∧
    (extractorBuildRequest text).responseFormat = some "json_object" ∧
    (openAILLMBuildRequest openAILLMDefaultModel openAILLMDefaultTemperature
      prompt stop).temperature = 0 ∧
    (openAILLMBuildRequest openAILLMDefaultModel openAILLMDefaultTemperature
      prompt stop).responseFormat = none :=
  ⟨rfl, rfl, rfl, rfl⟩
